import Mathlib

/-!
Shallow embedding of the value-stock-screener repository: the screening
engine (`src/pages/1_Stock Screener.py`), the polling pipeline
(`src/pipeline/data_poller.py`), the ratio fetchers (`src/pipeline/api.py`)
and the storage layer (`src/pipeline/db.py`).

Pandas/NumPy float cells are modelled as `Option ℚ`: `none` is the NaN
sentinel, `some q` a finite value.  All comparisons involving NaN are
false, multiplication propagates NaN, and pandas `mean` skips NaN entries
(its default `skipna=True`); the operations below reproduce exactly those
rules.  No claim in scope depends on binary rounding, so exact rationals
are a faithful carrier for the float arithmetic that the claims exercise.
-/

/-- A pandas float cell: `none` models NaN. -/
abbrev Flt := Option ℚ

/-- IEEE `<` as Python/pandas evaluate it: any comparison with NaN is false. -/
def fltLt : Flt → Flt → Bool
  | some a, some b => decide (a < b)
  | _, _ => false

/-- IEEE `<=`: false whenever either side is NaN. -/
def fltLe : Flt → Flt → Bool
  | some a, some b => decide (a ≤ b)
  | _, _ => false

/-- IEEE `>`: false whenever either side is NaN. -/
def fltGt : Flt → Flt → Bool
  | some a, some b => decide (b < a)
  | _, _ => false

/-- IEEE `>=`: false whenever either side is NaN. -/
def fltGe : Flt → Flt → Bool
  | some a, some b => decide (b ≤ a)
  | _, _ => false

/-- Float multiplication: NaN propagates. -/
def fltMul : Flt → Flt → Flt
  | some a, some b => some (a * b)
  | _, _ => none

/-- Python's builtin `min(a, b)`: returns `b` if `b < a` else `a`.
Consequently `min(nan, x) = nan` while `min(x, nan) = x`. -/
def pymin (a b : Flt) : Flt := if fltLt b a then b else a

/-- pandas `Series.mean()` with its default `skipna=True`: the arithmetic
mean of the non-NaN entries, NaN when there are none (also the mean of an
empty series). -/
def fltMean (xs : List Flt) : Flt :=
  let vs := xs.filterMap id
  if vs.isEmpty then none else some (vs.sum / (vs.length : ℚ))

/-- A calendar timestamp.  `d` is the absolute day ordinal, which carries
the chronological order and the `timedelta` arithmetic; `y` is the
calendar year returned by the `.year` / `.dt.year` accessors.  The claims
in scope use only these two projections of a pandas `Timestamp`. -/
structure Date where
  y : Int
  d : Int
  deriving DecidableEq

/-! ## Screening engine (`src/pages/1_Stock Screener.py`) -/

/-- One row of the historical ratio table as the screener loads it
(columns of `macrotrends_pe_pb_hist`), plus the `year` column that
`screen_stocks` assigns in place at its lines 45-46; `year = none`
models the column being absent from the caller's dataframe. -/
structure HistRow where
  symbol : String
  name : String
  date : Date
  stock_price : Flt
  book_value_per_share : Flt
  price_to_book_ratio : Flt
  ttm_net_eps : Flt
  pe_ratio : Flt
  year : Option Int := none
  deriving DecidableEq

/-- One row of the `current_ratios` snapshot table as the screener reads
it.  The `last_update` timestamp column is never read by the screening
code, so it is omitted from the embedding. -/
structure CurrentRow where
  symbol : String
  pb_ratio : Flt
  pe_ratio : Flt
  deriving DecidableEq

/-- The `criteria` dictionary built in `main` and consumed by
`screen_stocks`.  The dictionary also carries a `pe_margin_of_safety`
placeholder that no code reads; it is omitted. -/
structure Criteria where
  years_pb_history : Nat
  only_positive_pb : Bool
  max_current_pb_ratio : ℚ
  pb_margin_of_safety : ℚ
  years_positive_pe_history : Nat
  max_current_pe_ratio : ℚ
  deriving DecidableEq

/-- pandas `Series.max()` on the nonempty date column `g0 :: rest`. -/
def dateMax (g0 : HistRow) (rest : List HistRow) : Date :=
  rest.foldl (fun acc r => if acc.d ≤ r.date.d then r.date else acc) g0.date

/-- pandas `Series.min()` on the nonempty date column `g0 :: rest`. -/
def dateMin (g0 : HistRow) (rest : List HistRow) : Date :=
  rest.foldl (fun acc r => if r.date.d < acc.d then r.date else acc) g0.date

/-- `calculate_avg_pb_ratios` (screener lines 12-32) on a nonempty group
`g0 :: rest`: the 3-year average P/B, the full-window average P/B, and
`available_years`.  The source receives one dataframe argument and first
sorts it by date in place; the sort changes none of the three returned
values (max/min/mean are order independent), and its mutation side effect
is treated with claim C9. -/
def calculate_avg_pb_ratios (g0 : HistRow) (rest : List HistRow) : Flt × Flt × Int :=
  let stock_data := g0 :: rest
  let last_q_report_date := dateMax g0 rest
  let available_years := last_q_report_date.y - (dateMin g0 rest).y + 1
  let date_three_years_ago := last_q_report_date.d - 3 * 365
  let avg_calc_rows := stock_data.filter (fun r => decide (date_three_years_ago < r.date.d))
  let avg_pb_3_year := fltMean (avg_calc_rows.map (fun r => r.price_to_book_ratio))
  let avg_pb_max_year := fltMean (stock_data.map (fun r => r.price_to_book_ratio))
  (avg_pb_3_year, avg_pb_max_year, available_years)

/-- `group.sort_values('date').iloc[-1]`: the last row of a stable
ascending sort by date, i.e. the chronologically latest row (for tied
dates, the last such row in the group's order). -/
def lastMaxDateRow (g0 : HistRow) (rest : List HistRow) : HistRow :=
  rest.foldl (fun acc r => if acc.date.d ≤ r.date.d then r else acc) g0

/-- First row of a stable descending sort by date: the chronologically
latest row, for tied dates the first such row in the list's order
(`group.sort_values(ascending=False)` followed by `.first()`). -/
def firstMaxRow? : List HistRow → Option HistRow
  | [] => none
  | r :: rs => some (rs.foldl (fun acc x => if acc.date.d < x.date.d then x else acc) r)

/-- `current_df[current_df['symbol'] == sym].iloc[0]` guarded by
try/except: the first snapshot row for the symbol, if any. -/
def currentRowFor (current_df : List CurrentRow) (sym : String) : Option CurrentRow :=
  current_df.find? (fun c => c.symbol == sym)

/-- Screener line 81: the current P/B ratio used by the checks — the
snapshot value when a snapshot row exists for the symbol, else the most
recent historical row's P/B as fallback. -/
def latestPbRatio (current_df : List CurrentRow) (g0 : HistRow) (rest : List HistRow) : Flt :=
  match currentRowFor current_df g0.symbol with
  | some c => c.pb_ratio
  | none => (lastMaxDateRow g0 rest).price_to_book_ratio

/-- Screener line 97: the current P/E ratio — snapshot if present, else
the most recent historical row's P/E. -/
def latestPeRatio (current_df : List CurrentRow) (g0 : HistRow) (rest : List HistRow) : Flt :=
  match currentRowFor current_df g0.symbol with
  | some c => c.pe_ratio
  | none => (lastMaxDateRow g0 rest).pe_ratio

/-- Screener lines 82-83: the current-P/B ceiling check.  The symbol
stays valid on this check iff `latest_pb_ratio >= max_current_pb_ratio`
is false. -/
def pbCeilingOk (criteria : Criteria) (latest_pb : Flt) : Bool :=
  ! fltGe latest_pb (some criteria.max_current_pb_ratio)

/-- Screener lines 86-88: the margin-of-safety check.  The symbol stays
valid iff `latest_pb > pb_margin_of_safety * min(avg_pb_3yr, avg_pb_max_yr)`
is false. -/
def marginOfSafetyOk (criteria : Criteria) (latest_pb avg3 avgMax : Flt) : Bool :=
  ! fltGt latest_pb (fltMul (some criteria.pb_margin_of_safety) (pymin avg3 avgMax))

/-- Screener lines 98-99: the current-P/E ceiling check. -/
def peCeilingOk (criteria : Criteria) (latest_pe : Flt) : Bool :=
  ! fltGe latest_pe (some criteria.max_current_pe_ratio)

/-- Screener lines 91-92: after sorting the group by date descending,
`group.groupby('year').first()['pe_ratio']` yields, for a given year, the
P/E of the chronologically latest row of that year. -/
def peYearValue (g : List HistRow) (yr : Int) : Flt :=
  match firstMaxRow? (g.filter (fun r => decide (r.date.y = yr))) with
  | some r => r.pe_ratio
  | none => none

/-- Screener line 93: `(pe_ratios > 0).sum()` — the number of distinct
years whose latest P/E value is strictly positive (NaN counts as not
positive). -/
def positivePeYears (g0 : HistRow) (rest : List HistRow) : Nat :=
  let g := g0 :: rest
  (((g.map (fun r => r.date.y)).dedup).filter
      (fun yr => fltGt (peYearValue g yr) (some 0))).length

/-- `stock_meets_criteria` (screener lines 57-101).  The source
initialises `valid = True` and each failed check sets it to `False`, so
the result is the conjunction of the six checks.  Rows reaching this
function come from the windowed history, whose `year` column was just
assigned to `date.year`, so reading the column is reading `date.y`.
`groupby(...).filter` never passes an empty group; the `[]` branch is
unreachable through `screen_stocks`. -/
def stock_meets_criteria (current_df : List CurrentRow) (criteria : Criteria) :
    List HistRow → Bool
  | [] => false
  | g0 :: rest =>
    let group := g0 :: rest
    let historyDepthOk := ! decide (((group.map (fun r => r.date.y)).dedup).length
                                      < criteria.years_pb_history)
    let positivePbOk := ! (criteria.only_positive_pb
        && group.any (fun r => fltLe r.price_to_book_ratio (some 0)))
    let latest_pb := latestPbRatio current_df g0 rest
    let ceilOk := pbCeilingOk criteria latest_pb
    let avgs := calculate_avg_pb_ratios g0 rest
    let marginOk := marginOfSafetyOk criteria latest_pb avgs.1 avgs.2.1
    let peDepthOk := ! decide (positivePeYears g0 rest < criteria.years_positive_pe_history)
    let latest_pe := latestPeRatio current_df g0 rest
    let peCeilOk := peCeilingOk criteria latest_pe
    historyDepthOk && positivePbOk && ceilOk && marginOk && peDepthOk && peCeilOk

/-- Screener line 46: assign `df['year'] = df['date'].dt.year` (and the
line-45 `to_datetime` conversion, which is the identity on rows already
carrying parsed dates).  This is an in-place mutation of the caller's
dataframe. -/
def addYear (r : HistRow) : HistRow := { r with year := some r.date.y }

/-- Screener line 49: drop the rows of the current calendar year. -/
def excludedCurrentYear (df : List HistRow) (currentYear : Int) : List HistRow :=
  (df.map addYear).filter (fun r => decide (r.date.y ≠ currentYear))

/-- Maximum of the `year` column (`df['year'].max()`), `none` on an empty
frame (pandas yields NaN there, and any subsequent `>` filter is empty). -/
def yearMax? : List HistRow → Option Int
  | [] => none
  | r :: rs => some (rs.foldl (fun m x => max m x.date.y) r.date.y)

/-- Screener line 52: the most recent year present after excluding the
current year. -/
def mostRecentYear? (df : List HistRow) (currentYear : Int) : Option Int :=
  yearMax? (excludedCurrentYear df currentYear)

/-- Screener lines 44-55: the windowed history that every per-symbol
check is evaluated over — current year excluded, then only years within
10 of the maximum remaining year retained. -/
def windowedHistory (df : List HistRow) (currentYear : Int) : List HistRow :=
  let df2 := excludedCurrentYear df currentYear
  match yearMax? df2 with
  | none => []
  | some mry => df2.filter (fun r => decide (mry - 10 < r.date.y))

/-- The rows of one symbol, in frame order (`groupby('symbol')` group). -/
def symGroup (rows : List HistRow) (sym : String) : List HistRow :=
  rows.filter (fun r => r.symbol == sym)

/-- Screener line 104: the symbols of the windowed history whose group
passes `stock_meets_criteria` (`groupby('symbol').filter(...)` followed
by `['symbol'].unique()`; only the membership of the resulting set is
consumed downstream). -/
def screenedSymbols (df : List HistRow) (current_df : List CurrentRow)
    (criteria : Criteria) (currentYear : Int) : List String :=
  let w := windowedHistory df currentYear
  ((w.map (fun r => r.symbol)).dedup).filter
    (fun s => stock_meets_criteria current_df criteria (symGroup w s))

/-- `screen_stocks` (screener lines 36-111).  Returns the windowed
history restricted to qualifying symbols, the snapshot rows restricted to
the same symbols, and — because lines 45-46 assign columns of the passed
dataframe in place — the caller-visible final state of the `df` argument. -/
def screen_stocks (df : List HistRow) (current_df : List CurrentRow)
    (criteria : Criteria) (currentYear : Int) :
    List HistRow × List CurrentRow × List HistRow :=
  let w := windowedHistory df currentYear
  let scr := screenedSymbols df current_df criteria currentYear
  (w.filter (fun r => scr.contains r.symbol),
   current_df.filter (fun c => scr.contains c.symbol),
   df.map addYear)

/-! ## Ratio fetchers (`src/pipeline/api.py`) -/

/-- One row of the processed P/B history dataframe returned by
`get_pb_ratio_history` (columns symbol, name, date, stock_price,
book_value_per_share, price_to_book_ratio). -/
structure PbRow where
  symbol : String
  name : String
  date : Date
  stock_price : Flt
  book_value_per_share : Flt
  price_to_book_ratio : Flt
  deriving DecidableEq

/-- One row of the processed P/E history dataframe returned by
`get_pe_ratio_history` after its `stock_price` column is dropped
(columns date, ttm_net_eps, pe_ratio). -/
structure PeRow where
  date : Date
  ttm_net_eps : Flt
  pe_ratio : Flt
  deriving DecidableEq

/-- One raw table row of the scraped price-book page, after the numeric
cells have been stripped of currency symbols and coerced (NaN-able).
The date cell is modelled post-parsing-attempt: `none` when the scraped
string does not parse as a date. -/
structure RawPbRow where
  date : Option Date
  stock_price : Flt
  book_value_per_share : Flt
  price_to_book_ratio : Flt
  deriving DecidableEq

/-- One raw table row of the scraped pe-ratio page, likewise. -/
structure RawPeRow where
  date : Option Date
  ttm_net_eps : Flt
  pe_ratio : Flt
  deriving DecidableEq

/-- Table processing of `get_pb_ratio_history` (api.py lines 115-139):
`pd.to_datetime(..., errors='coerce')` turns unparseable dates into NaT
and `dropna(subset=['date'])` then drops exactly those rows; the
remaining rows are kept in order with the symbol/name metadata appended. -/
def parse_pb_table (symbol company_name : String) (raw : List RawPbRow) : List PbRow :=
  raw.filterMap (fun r =>
    r.date.map (fun dt =>
      { symbol := symbol, name := company_name, date := dt,
        stock_price := r.stock_price,
        book_value_per_share := r.book_value_per_share,
        price_to_book_ratio := r.price_to_book_ratio }))

/-- Table processing of `get_pe_ratio_history` (api.py lines 84-91):
`pd.to_datetime(df['date'])` is called with the default `errors='raise'`,
so a single unparseable date raises and the whole fetch call fails
(`none`); otherwise every row is returned. -/
def parse_pe_table (raw : List RawPeRow) : Option (List PeRow) :=
  if raw.all (fun r => r.date.isSome) then
    some (raw.filterMap (fun r =>
      r.date.map (fun dt =>
        { date := dt, ttm_net_eps := r.ttm_net_eps, pe_ratio := r.pe_ratio })))
  else none

/-! ## Polling pipeline (`src/pipeline/data_poller.py`) -/

/-- One row of the concatenated history persisted per ticker.
`pd.concat([pb.set_index('date'), pe.set_index('date')], axis=1)` is an
outer join on date: a date present on only one side leaves the other
side's columns NaN (for the string columns, modelled as `none`). -/
structure MergedRow where
  date : Date
  symbol : Option String
  name : Option String
  stock_price : Flt
  book_value_per_share : Flt
  price_to_book_ratio : Flt
  ttm_net_eps : Flt
  pe_ratio : Flt
  deriving DecidableEq

/-- Insert into a list kept sorted by date descending
(`sort_values('date', ascending=False)` of the concatenated frame). -/
def insertByDateDesc (r : MergedRow) : List MergedRow → List MergedRow
  | [] => [r]
  | x :: xs => if r.date.d ≤ x.date.d then x :: insertByDateDesc r xs else r :: x :: xs

/-- Poller lines 82-83: outer-join the P/B and P/E frames on date and
sort the result by date descending.  Dates are unique within each
scraped table (a duplicated index would make `pd.concat` raise). -/
def mergePbPe (pb : List PbRow) (pe : List PeRow) : List MergedRow :=
  let dates := ((pb.map (fun r => r.date)) ++ (pe.map (fun r => r.date))).dedup
  let rows : List MergedRow := dates.map (fun dt =>
    let p? := pb.find? (fun r => r.date == dt)
    let q? := pe.find? (fun r => r.date == dt)
    { date := dt,
      symbol := p?.map (fun r => r.symbol),
      name := p?.map (fun r => r.name),
      stock_price := p?.bind (fun r => r.stock_price),
      book_value_per_share := p?.bind (fun r => r.book_value_per_share),
      price_to_book_ratio := p?.bind (fun r => r.price_to_book_ratio),
      ttm_net_eps := q?.bind (fun r => r.ttm_net_eps),
      pe_ratio := q?.bind (fun r => r.pe_ratio) })
  rows.foldl (fun acc r => insertByDateDesc r acc) []

/-- Result of one ticker's P/B fetch: the processed history rows and the
current P/B value scraped from the page. -/
structure PbFetch where
  rows : List PbRow
  current : ℚ
  deriving DecidableEq

/-- Result of one ticker's P/E fetch. -/
structure PeFetch where
  rows : List PeRow
  current : ℚ
  deriving DecidableEq

/-- One ticker of the polled universe together with the outcome the
external source would give for its two fetches in this batch: `none`
models the fetch call raising. -/
structure TickerFetch where
  symbol : String
  pb? : Option PbFetch
  pe? : Option PeFetch
  deriving DecidableEq

/-- The current-ratio row built at poller lines 90-95.  `last_update` is
a wall-clock timestamp and is omitted.  Note the row type has no notion
of an absent P/E: the dict always carries whatever `current_pe` holds. -/
structure CurStoreRow where
  symbol : String
  pb_ratio : ℚ
  pe_ratio : ℚ
  deriving DecidableEq

/-- Observable events of one `poll_tickers` run, in order: the warning
logs of the except branches, the rate-limit sleeps, and the two
per-ticker storage calls (storage itself is modelled as succeeding; its
failure handling is claim C10's subject). -/
inductive PollEvent where
  | warnPbFetch (sym : String)
  | sleep
  | warnPeFetch (sym : String)
  | warnConcat (sym : String)
  | warnStoreHist (sym : String)
  | storeHist (rows : List MergedRow)
  | storeCur (row : CurStoreRow)
  deriving DecidableEq

/-- Python local variables of the `poll_tickers` loop body that survive
from one iteration to the next.  `none` models a name that has never
been bound (reading it raises `NameError`). -/
structure PollVars where
  pe_history_df : Option (List PeRow) := none
  current_pe : Option ℚ := none
  concat_df : Option (List MergedRow) := none
  deriving DecidableEq

/-- The only exception that escapes the per-ticker handlers of
`poll_tickers`: reading a never-bound local (a `NameError`), which
occurs outside every try block at poller lines 90-95. -/
inductive PollErr where
  | nameError
  deriving DecidableEq

/-- The loop body of `poll_tickers` (poller lines 53-112) for one ticker:
 - P/B fetch failure: warn and `continue` — no sleep, no P/E fetch, no
   store (lines 62-65);
 - P/B success: sleep, then try the P/E fetch (success binds
   `pe_history_df`/`current_pe` and sleeps; failure warns and sleeps,
   lines 67-78);
 - concatenate with whatever `pe_history_df` currently holds (a stale
   binding from an earlier ticker survives here); an unbound name raises
   inside the try and is caught (lines 80-86);
 - build the current-ratio row: reading an unbound `current_pe` raises a
   `NameError` outside any try (lines 88-95);
 - store the concatenated frame (stale `concat_df` is stored if this
   ticker's concat failed; an unbound name is caught by the store's
   except) and the current-ratio row (lines 97-112). -/
def pollStep (v : PollVars) (t : TickerFetch) : PollVars × List PollEvent × Option PollErr :=
  match t.pb? with
  | none => (v, [PollEvent.warnPbFetch t.symbol], none)
  | some pb =>
    let peStage : PollVars × List PollEvent :=
      match t.pe? with
      | some pe => ({ v with pe_history_df := some pe.rows, current_pe := some pe.current },
                    [PollEvent.sleep, PollEvent.sleep])
      | none => (v, [PollEvent.sleep, PollEvent.warnPeFetch t.symbol, PollEvent.sleep])
    let v1 := peStage.1
    let concatStage : PollVars × List PollEvent :=
      match v1.pe_history_df with
      | some peRows => ({ v1 with concat_df := some (mergePbPe pb.rows peRows) }, [])
      | none => (v1, [PollEvent.warnConcat t.symbol])
    let v2 := concatStage.1
    match v2.current_pe with
    | none => (v2, peStage.2 ++ concatStage.2, some PollErr.nameError)
    | some cpe =>
      let curRow : CurStoreRow := { symbol := t.symbol, pb_ratio := pb.current, pe_ratio := cpe }
      let storeHistEv :=
        match v2.concat_df with
        | some rows => [PollEvent.storeHist rows]
        | none => [PollEvent.warnStoreHist t.symbol]
      (v2, peStage.2 ++ concatStage.2 ++ storeHistEv ++ [PollEvent.storeCur curRow], none)

/-- `poll_tickers` over a resolved ticker list: runs the loop body per
ticker, stopping only when an exception escapes the per-ticker handlers
(then the remaining tickers are not processed and the exception
propagates to `run`). -/
def poll_tickers : PollVars → List TickerFetch → List PollEvent × Option PollErr
  | _, [] => ([], none)
  | v, t :: rest =>
    match pollStep v t with
    | (v1, evs, none) =>
      let tail := poll_tickers v1 rest
      (evs ++ tail.1, tail.2)
    | (_, evs, some e) => (evs, some e)

/-! ## Run loop (`DataPoller.run`, poller lines 115-136) -/

/-- Outcome of one `poll_tickers()` invocation as seen by `run`:
it returns normally, raises `KeyboardInterrupt`, or raises any other
exception (a systemic failure). -/
inductive PollOutcome where
  | success
  | cancel
  | error
  deriving DecidableEq

/-- Observable actions of the run loop: the backoff sleeps, in seconds. -/
inductive RunEvent where
  | sleep (secs : Nat)
  deriving DecidableEq

/-- How the run loop is left after consuming the given outcomes:
still polling (with the current retry counter), stopped by the user, or
stopped because the retries were exhausted. -/
inductive RunExit where
  | polling (retries : Nat)
  | stoppedCancel
  | stoppedExhausted
  deriving DecidableEq

/-- `max_retries = 5` (poller line 116). -/
def maxRetries : Nat := 5

/-- `base_wait_time = 5` seconds (poller line 117). -/
def baseWaitTime : Nat := 5

/-- The `while True` loop of `run`, driven by the finite list of outcomes
its successive `poll_tickers()` calls would produce: success resets the
counter; cancellation breaks; an error increments the counter, and the
loop either exits (counter past the maximum, no sleep) or sleeps
`base_wait_time * 2 ** retries` seconds and retries. -/
def runFrom : Nat → List PollOutcome → List RunEvent × RunExit
  | r, [] => ([], RunExit.polling r)
  | _, PollOutcome.success :: rest => runFrom 0 rest
  | _, PollOutcome.cancel :: _ => ([], RunExit.stoppedCancel)
  | r, PollOutcome.error :: rest =>
    let r1 := r + 1
    if maxRetries < r1 then ([], RunExit.stoppedExhausted)
    else
      let tail := runFrom r1 rest
      (RunEvent.sleep (baseWaitTime * 2 ^ r1) :: tail.1, tail.2)

/-- `DataPoller.run`: the loop starts with the retry counter at zero. -/
def run (outcomes : List PollOutcome) : List RunEvent × RunExit :=
  runFrom 0 outcomes

/-! ## Storage layer (`src/pipeline/db.py`)

The relational engine itself is an external collaborator; what is
embedded is the transaction discipline of `PostgreSQL.transaction` /
`store_report_dataframes` / `store_current_ratio_dataframes` over an
abstract table state, with each statement's acceptance by the engine
abstracted as a predicate (a rejected statement makes `executemany`
raise mid-batch, as a constraint/encoding error would). -/

/-- A row of either table as a prepared tuple, paired below with an
upsert action and an acceptance predicate. -/
def upsertIgnoreHist (tbl : List MergedRow) (t : MergedRow) : List MergedRow :=
  if tbl.any (fun u => u.symbol == t.symbol && u.date == t.date) then tbl else tbl ++ [t]

/-- `ON CONFLICT (Symbol) DO UPDATE` of `store_current_ratio_dataframes`:
an existing row for the symbol is overwritten, otherwise appended. -/
def upsertUpdateCur (tbl : List CurStoreRow) (t : CurStoreRow) : List CurStoreRow :=
  if tbl.any (fun u => u.symbol == t.symbol) then
    tbl.map (fun u => if u.symbol == t.symbol then t else u)
  else tbl ++ [t]

/-- `cursor.executemany`: execute the statement per tuple, in order,
against the session state; the first tuple the engine rejects makes the
call raise (`false`) with the earlier tuples applied to the
still-uncommitted session. -/
def executemanyWith {T : Type} (accepts : T → Bool) (upsert : List T → T → List T) :
    List T → List T → List T × Bool
  | session, [] => (session, true)
  | session, t :: ts =>
    if accepts t then executemanyWith accepts upsert (upsert session t) ts
    else (session, false)

/-- Connection state for one table: the durably committed rows and the
session's (possibly uncommitted) view. -/
structure TableConn (T : Type) where
  committed : List T
  session : List T
  deriving DecidableEq

/-- The `transaction` context manager (db.py lines 34-46) around an
`executemany` body: commit on success; on failure roll the session back
to the committed state, and re-raise — the `Bool` result is `false`
exactly when the exception is re-raised to the caller. -/
def runInTransaction {T : Type} (accepts : T → Bool) (upsert : List T → T → List T)
    (conn : TableConn T) (all_data : List T) : TableConn T × Bool :=
  let res := executemanyWith accepts upsert conn.session all_data
  if res.2 then ({ committed := res.1, session := res.1 }, true)
  else ({ committed := conn.committed, session := conn.committed }, false)

/-- `store_report_dataframes` (db.py lines 84-98): flatten the prepared
tuples of all frames and run the ignore-on-conflict insert inside one
transaction. -/
def store_report_dataframes (accepts : MergedRow → Bool)
    (conn : TableConn MergedRow) (dataframes : List (List MergedRow)) :
    TableConn MergedRow × Bool :=
  runInTransaction accepts upsertIgnoreHist conn dataframes.flatten

/-- `store_current_ratio_dataframes` (db.py lines 134-151): flatten the
prepared tuples and run the update-on-conflict insert inside one
transaction. -/
def store_current_ratio_dataframes (accepts : CurStoreRow → Bool)
    (conn : TableConn CurStoreRow) (dataframes : List (List CurStoreRow)) :
    TableConn CurStoreRow × Bool :=
  runInTransaction accepts upsertUpdateCur conn dataframes.flatten

/-! ## Concrete instances used by the witnesses and counterexamples -/

/-- A historical row whose P/B value is NaN (as `load_data` produces when
the stored ratio was infinite): its group's averages are NaN. -/
def nanPbRow : HistRow :=
  { symbol := "A", name := "A Co", date := ⟨2020, 100⟩,
    stock_price := some 5, book_value_per_share := some 5, price_to_book_ratio := none,
    ttm_net_eps := some 1, pe_ratio := some 1 }

/-- A snapshot row for the symbol of `nanPbRow`. -/
def nanPbCurrent : List CurrentRow :=
  [{ symbol := "A", pb_ratio := some 1, pe_ratio := some 1 }]

/-- Permissive criteria under which `nanPbRow`'s symbol passes every
check other than (possibly) the margin-of-safety one. -/
def nanPbCriteria : Criteria :=
  { years_pb_history := 1, only_positive_pb := false,
    max_current_pb_ratio := 2, pb_margin_of_safety := 1,
    years_positive_pe_history := 1, max_current_pe_ratio := 30 }

/-- The default screener criteria (`main`, screener lines 231-254, with
the scenario ceiling of 30 for P/E). -/
def defaultCriteria : Criteria :=
  { years_pb_history := 7, only_positive_pb := true,
    max_current_pb_ratio := 2, pb_margin_of_safety := 1,
    years_positive_pe_history := 7, max_current_pe_ratio := 30 }

/-- A P/B history row of ticker A for the poller scenario. -/
def pollPbA : PbRow :=
  { symbol := "A", name := "A Co", date := ⟨2020, 100⟩, stock_price := some 10,
    book_value_per_share := some 5, price_to_book_ratio := some 2 }

/-- A P/E history row of ticker A, on A's report date. -/
def pollPeA : PeRow := { date := ⟨2020, 100⟩, ttm_net_eps := some 1, pe_ratio := some 5 }

/-- A P/B history row of ticker B, on a different report date. -/
def pollPbB : PbRow :=
  { symbol := "B", name := "B Co", date := ⟨2021, 200⟩, stock_price := some 9,
    book_value_per_share := some 3, price_to_book_ratio := some 3 }

/-- Ticker A: both fetches succeed (current P/B 1, current P/E 2). -/
def tickerA : TickerFetch :=
  { symbol := "A", pb? := some { rows := [pollPbA], current := 1 },
    pe? := some { rows := [pollPeA], current := 2 } }

/-- Ticker B: the P/B fetch succeeds (current P/B 3), the P/E fetch
raises. -/
def tickerB : TickerFetch :=
  { symbol := "B", pb? := some { rows := [pollPbB], current := 3 }, pe? := none }

/-- A ticker whose P/B fetch raises. -/
def pbFailTicker : TickerFetch := { symbol := "F", pb? := none, pe? := none }

/-- A scraped P/E table row whose date parses. -/
def rawPeGood : RawPeRow := { date := some ⟨2020, 100⟩, ttm_net_eps := some 1, pe_ratio := some 2 }

/-- A scraped P/E table row whose date does not parse. -/
def rawPeBad : RawPeRow := { date := none, ttm_net_eps := some 3, pe_ratio := some 4 }

/-- A scraped P/B table: one parseable-date row, one unparseable. -/
def rawPbEx : List RawPbRow :=
  [{ date := some ⟨2020, 100⟩, stock_price := some 1, book_value_per_share := some 1,
     price_to_book_ratio := some 1 },
   { date := none, stock_price := some 2, book_value_per_share := some 2,
     price_to_book_ratio := some 2 }]

/-- A history row carrying no `year` column, as the screener's caller
holds it before `screen_stocks` runs. -/
def pristineRow : HistRow :=
  { symbol := "P", name := "P Co", date := ⟨2020, 10⟩,
    stock_price := some 1, book_value_per_share := some 1, price_to_book_ratio := some 1,
    ttm_net_eps := some 1, pe_ratio := some 1 }

/-- A row in the 10-year window anchored at 2020 (with its `year` column
already assigned, as all windowed rows are). -/
def windowRow : HistRow :=
  { symbol := "W", name := "W Co", date := ⟨2020, 50⟩,
    stock_price := some 1, book_value_per_share := some 1, price_to_book_ratio := some 1,
    ttm_net_eps := some 1, pe_ratio := some 1, year := some 2020 }

/-- A one-year history for symbol S — fewer distinct years than the
default seven-year requirement. -/
def c5Row : HistRow :=
  { symbol := "S", name := "S Co", date := ⟨2020, 50⟩,
    stock_price := some 1, book_value_per_share := some 1, price_to_book_ratio := some 1,
    ttm_net_eps := some 1, pe_ratio := some 1 }

/-- A merged-history tuple the storage engine accepts. -/
def mrowOk : MergedRow :=
  { date := ⟨2020, 100⟩, symbol := some "A", name := some "A Co", stock_price := some 1,
    book_value_per_share := some 1, price_to_book_ratio := some 1,
    ttm_net_eps := some 1, pe_ratio := some 1 }

/-- A merged-history tuple the storage engine rejects under
`mrowAccepts` below. -/
def mrowBad : MergedRow :=
  { date := ⟨2021, 200⟩, symbol := none, name := none, stock_price := none,
    book_value_per_share := none, price_to_book_ratio := none,
    ttm_net_eps := none, pe_ratio := none }

/-- Acceptance predicate of the history insert used by the C10 witness:
the engine rejects a tuple with no symbol. -/
def mrowAccepts : MergedRow → Bool := fun r => r.symbol.isSome

/-- A current-ratio tuple the engine accepts. -/
def crowOk : CurStoreRow := { symbol := "A", pb_ratio := 1, pe_ratio := 2 }

/-- A current-ratio tuple the engine rejects under `crowAccepts`. -/
def crowBad : CurStoreRow := { symbol := "TOOLONGSYMBOL", pb_ratio := 1, pe_ratio := 2 }

/-- Acceptance predicate of the current-ratio insert used by the C10
witness: the engine rejects symbols longer than its column width. -/
def crowAccepts : CurStoreRow → Bool := fun r => decide (r.symbol.length ≤ 10)

/-- An empty history-table connection. -/
def connH0 : TableConn MergedRow := { committed := [], session := [] }

/-- An empty current-ratio-table connection. -/
def connC0 : TableConn CurStoreRow := { committed := [], session := [] }

/-! ## Helper lemmas -/

/-- The pandas mean is NaN exactly when the series has no non-NaN entry. -/
theorem fltMean_eq_none_iff (xs : List Flt) : fltMean xs = none ↔ xs.filterMap id = [] := by
  constructor
  · intro h
    cases hfm : xs.filterMap id with
    | nil => rfl
    | cons a l =>
      have hne : (xs.filterMap id).isEmpty = false := by simp [hfm]
      simp [fltMean, hne] at h
  · intro h
    simp [fltMean, h]

/-- A sub-series of an all-NaN series also has NaN mean. -/
theorem fltMean_none_of_sublist {xs ys : List Flt} (hsub : List.Sublist xs ys)
    (h : fltMean ys = none) : fltMean xs = none := by
  rw [fltMean_eq_none_iff] at h ⊢
  have h2 := List.Sublist.filterMap id hsub
  rw [h] at h2
  exact List.eq_nil_of_sublist_nil h2

/-- If the full-window average is NaN (all P/B values NaN), the 3-year
average is NaN too: its rows are a sub-list of the window's rows. -/
theorem avg3_none_of_avgMax_none (g0 : HistRow) (rest : List HistRow)
    (h : (calculate_avg_pb_ratios g0 rest).2.1 = none) :
    (calculate_avg_pb_ratios g0 rest).1 = none := by
  unfold calculate_avg_pb_ratios at h ⊢
  simp only at h ⊢
  refine fltMean_none_of_sublist ?_ h
  exact List.Sublist.map _ (List.filter_sublist _)

/-! ## C1 — undefined averages and the margin-of-safety check -/

/-- C1 counterexample: a symbol whose margin-of-safety averages are both
the NaN sentinel is nevertheless in the qualifying set of
`screen_stocks` — the margin-of-safety check passes silently instead of
disqualifying it. -/
theorem c1_nan_avgs_can_qualify :
    (calculate_avg_pb_ratios nanPbRow []).1 = none ∧
    (calculate_avg_pb_ratios nanPbRow []).2.1 = none ∧
    "A" ∈ screenedSymbols [nanPbRow] nanPbCurrent nanPbCriteria 2024 := by
  decide

/-- C1 amended: when a symbol's margin-of-safety averages are undefined
(`avg_pb_3yr` NaN, or `avg_pb_max_yr` NaN — which forces the former),
the margin-of-safety check in `stock_meets_criteria` evaluates as
passing for every criteria and every current P/B value: the comparison
`latest_pb > margin * min(avg3, avgMax)` is an IEEE comparison against
NaN and is always false, so it never disqualifies. -/
theorem c1_nan_margin_check_passes (criteria : Criteria) (latest_pb : Flt)
    (g0 : HistRow) (rest : List HistRow)
    (h : (calculate_avg_pb_ratios g0 rest).1 = none ∨
         (calculate_avg_pb_ratios g0 rest).2.1 = none) :
    marginOfSafetyOk criteria latest_pb (calculate_avg_pb_ratios g0 rest).1
      (calculate_avg_pb_ratios g0 rest).2.1 = true := by
  have h3 : (calculate_avg_pb_ratios g0 rest).1 = none := by
    cases h with
    | inl h1 => exact h1
    | inr h2 => exact avg3_none_of_avgMax_none g0 rest h2
  rw [h3]
  unfold marginOfSafetyOk pymin
  have hlt : fltLt (calculate_avg_pb_ratios g0 rest).2.1 none = false := by
    cases (calculate_avg_pb_ratios g0 rest).2.1 <;> rfl
  rw [hlt]
  simp [fltMul, fltGt]

/-- C1 witness: the amended statement applied to the concrete NaN-P/B
group. -/
theorem c1_nan_margin_check_passes_witness :
    ((calculate_avg_pb_ratios nanPbRow []).1 = none ∨
     (calculate_avg_pb_ratios nanPbRow []).2.1 = none) ∧
    marginOfSafetyOk nanPbCriteria (some 1) (calculate_avg_pb_ratios nanPbRow []).1
      (calculate_avg_pb_ratios nanPbRow []).2.1 = true :=
  ⟨Or.inl (by decide),
   c1_nan_margin_check_passes nanPbCriteria (some 1) nanPbRow [] (Or.inl (by decide))⟩

/-! ## C2 — P/E fetch failure handling in `poll_tickers` -/

/-- C2: evaluating `poll_tickers` at the failing inputs.  With ticker B's
P/E fetch failing after ticker A succeeded, B's persisted current-ratio
row carries A's current P/E (2, not absent), and B's persisted history is
the outer join of B's P/B rows with A's stale P/E rows, containing A's
P/E value 5 on a date with no P/B data at all.  With no previously
successful P/E fetch, the never-bound `current_pe` local raises a
`NameError` outside every per-step handler and the whole batch aborts.
By contrast the join itself, applied to an empty P/E frame, does leave
the P/E fields absent — the claim describes the intended behaviour, which
the stale-variable reuse defeats. -/
theorem c2_stale_pe_reuse :
    (poll_tickers {} [tickerB]).2 = some PollErr.nameError ∧
    PollEvent.storeCur { symbol := "B", pb_ratio := 3, pe_ratio := 2 }
      ∈ (poll_tickers {} [tickerA, tickerB]).1 ∧
    PollEvent.storeHist (mergePbPe [pollPbB] [pollPeA])
      ∈ (poll_tickers {} [tickerA, tickerB]).1 ∧
    (∃ r ∈ mergePbPe [pollPbB] [pollPeA], r.pe_ratio = some 5 ∧ r.symbol = none) ∧
    mergePbPe [pollPbB] [] =
      [{ date := ⟨2021, 200⟩, symbol := some "B", name := some "B Co",
         stock_price := some 9, book_value_per_share := some 3,
         price_to_book_ratio := some 3, ttm_net_eps := none, pe_ratio := none }] := by
  decide

/-! ## C3 — strict ceilings, non-strict margin -/

/-- C3: in `stock_meets_criteria` the current-P/B ceiling check is
strict (a finite current P/B keeps the symbol valid on that check iff it
is strictly below `max_current_pb_ratio`, so equality disqualifies), the
margin-of-safety check is non-strict (valid iff current P/B is at most
`pb_margin_of_safety * min(avg_pb_3yr, avg_pb_max_yr)` whenever that
product is defined, so equality passes), and the current-P/E ceiling is
strict in the same way. -/
theorem c3_ceiling_strict_margin_nonstrict (criteria : Criteria) (q : ℚ)
    (avg3 avgMax : Flt) (m : ℚ)
    (hm : fltMul (some criteria.pb_margin_of_safety) (pymin avg3 avgMax) = some m) :
    (pbCeilingOk criteria (some q) = true ↔ q < criteria.max_current_pb_ratio) ∧
    (marginOfSafetyOk criteria (some q) avg3 avgMax = true ↔ q ≤ m) ∧
    (peCeilingOk criteria (some q) = true ↔ q < criteria.max_current_pe_ratio) := by
  refine ⟨?_, ?_, ?_⟩
  · simp [pbCeilingOk, fltGe, not_le]
  · rw [marginOfSafetyOk, hm]
    simp [fltGt, not_lt]
  · simp [peCeilingOk, fltGe, not_le]

/-- C3 witness: the theorem applied at the exact-equality boundary —
current P/B 2 equals the ceiling 2 and exceeds the margin bound 1; the
instantiated equivalences exhibit both strictness directions. -/
theorem c3_ceiling_strict_margin_nonstrict_witness :
    fltMul (some defaultCriteria.pb_margin_of_safety) (pymin (some 1) (some 2))
      = some 1 ∧
    ((pbCeilingOk defaultCriteria (some 2) = true ↔ (2:ℚ) < defaultCriteria.max_current_pb_ratio) ∧
     (marginOfSafetyOk defaultCriteria (some 2) (some 1) (some 2) = true ↔ (2:ℚ) ≤ 1) ∧
     (peCeilingOk defaultCriteria (some 2) = true ↔ (2:ℚ) < defaultCriteria.max_current_pe_ratio)) :=
  ⟨by norm_num [fltMul, pymin, fltLt, defaultCriteria],
   c3_ceiling_strict_margin_nonstrict defaultCriteria 2 (some 1) (some 2) 1
     (by norm_num [fltMul, pymin, fltLt, defaultCriteria])⟩

/-! ## C4 — the 10-year window excluding the current year -/

/-- The year-column fold is bounded below by its accumulator. -/
theorem foldlYearMax_le_self (rs : List HistRow) (a : Int) :
    a ≤ rs.foldl (fun m x => max m x.date.y) a := by
  induction rs generalizing a with
  | nil => simp
  | cons x xs ih => exact le_trans (le_max_left _ _) (ih (max a x.date.y))

/-- Every member's year is bounded by the year-column fold. -/
theorem mem_le_foldlYearMax {r : HistRow} (rs : List HistRow) (a : Int) (h : r ∈ rs) :
    r.date.y ≤ rs.foldl (fun m x => max m x.date.y) a := by
  induction rs generalizing a with
  | nil => cases h
  | cons x xs ih =>
    cases h with
    | head => exact le_trans (le_max_right _ _) (foldlYearMax_le_self xs _)
    | tail _ hx => exact ih _ hx

/-- `yearMax?` is an upper bound on the years present. -/
theorem le_yearMax {l : List HistRow} {r : HistRow} {mry : Int}
    (hl : yearMax? l = some mry) (hr : r ∈ l) : r.date.y ≤ mry := by
  cases l with
  | nil => cases hr
  | cons x xs =>
    simp only [yearMax?, Option.some.injEq] at hl
    subst hl
    cases hr with
    | head => exact foldlYearMax_le_self xs _
    | tail _ hx => exact mem_le_foldlYearMax xs _ hx

/-- Unfolding lemma exposing the source's `most_recent_year` case split. -/
theorem windowedHistory_def (df : List HistRow) (currentYear : Int) :
    windowedHistory df currentYear =
      match yearMax? (excludedCurrentYear df currentYear) with
      | none => []
      | some mry => (excludedCurrentYear df currentYear).filter
          (fun r => decide (mry - 10 < r.date.y)) := rfl

/-- C4: every row retained by the window that `screen_stocks` evaluates
its checks over has a year different from the current year, and — with
`Y` the maximum year remaining after that exclusion — a year `y` with
`Y - 10 < y ≤ Y`. -/
theorem c4_window_bounds (df : List HistRow) (currentYear : Int) (r : HistRow)
    (hr : r ∈ windowedHistory df currentYear) :
    ∃ mry, mostRecentYear? df currentYear = some mry ∧
      r.date.y ≠ currentYear ∧ mry - 10 < r.date.y ∧ r.date.y ≤ mry := by
  rw [windowedHistory_def] at hr
  cases hY : yearMax? (excludedCurrentYear df currentYear) with
  | none =>
    rw [hY] at hr
    cases hr
  | some mry =>
    rw [hY] at hr
    have hmem := List.mem_filter.mp hr
    refine ⟨mry, hY, ?_, ?_, le_yearMax hY hmem.1⟩
    · have h2 := (List.mem_filter.mp hmem.1).2
      simpa using h2
    · simpa using hmem.2

/-- C4 witness: the window theorem applied to a one-row history. -/
theorem c4_window_bounds_witness :
    windowRow ∈ windowedHistory [windowRow] 2024 ∧
    ∃ mry, mostRecentYear? [windowRow] 2024 = some mry ∧
      windowRow.date.y ≠ 2024 ∧ mry - 10 < windowRow.date.y ∧ windowRow.date.y ≤ mry :=
  ⟨by decide, c4_window_bounds [windowRow] 2024 windowRow (by decide)⟩

/-! ## C5 — insufficient history depth never qualifies -/

/-- C5: a symbol whose windowed group has fewer distinct calendar years
than `years_pb_history` — in particular one with no windowed rows at
all — is absent from the qualifying set of `screen_stocks`, whatever the
snapshot and the remaining criteria fields are. -/
theorem c5_insufficient_history (df : List HistRow) (current_df : List CurrentRow)
    (criteria : Criteria) (currentYear : Int) (s : String)
    (h : (((symGroup (windowedHistory df currentYear) s).map (fun r => r.date.y)).dedup).length
           < criteria.years_pb_history
         ∨ symGroup (windowedHistory df currentYear) s = []) :
    s ∉ screenedSymbols df current_df criteria currentYear ∧
    ∀ r ∈ (screen_stocks df current_df criteria currentYear).1, r.symbol ≠ s := by
  have hmeets : stock_meets_criteria current_df criteria
      (symGroup (windowedHistory df currentYear) s) = false := by
    cases hG : symGroup (windowedHistory df currentYear) s with
    | nil => rfl
    | cons g0 rest =>
      rw [hG] at h
      cases h with
      | inl hlt =>
        simp only [stock_meets_criteria]
        rw [decide_eq_true hlt]
        simp
      | inr hnil => exact absurd hnil (List.cons_ne_nil g0 rest)
  have hnotmem : s ∉ screenedSymbols df current_df criteria currentYear := by
    intro hs
    unfold screenedSymbols at hs
    have hpred := (List.mem_filter.mp hs).2
    rw [hmeets] at hpred
    cases hpred
  refine ⟨hnotmem, ?_⟩
  intro r hrmem hrs
  unfold screen_stocks at hrmem
  have h2 := List.mem_filter.mp hrmem
  have hc := h2.2
  rw [hrs] at hc
  exact hnotmem (List.elem_iff.mp hc)

/-- C5 witness: a single-year history under a seven-year requirement. -/
theorem c5_insufficient_history_witness :
    ((((symGroup (windowedHistory [c5Row] 2024) "S").map (fun r => r.date.y)).dedup).length
        < defaultCriteria.years_pb_history
      ∨ symGroup (windowedHistory [c5Row] 2024) "S" = []) ∧
    ("S" ∉ screenedSymbols [c5Row] [] defaultCriteria 2024 ∧
     ∀ r ∈ (screen_stocks [c5Row] [] defaultCriteria 2024).1, r.symbol ≠ "S") :=
  ⟨Or.inl (by decide),
   c5_insufficient_history [c5Row] [] defaultCriteria 2024 "S" (Or.inl (by decide))⟩

/-! ## C6 — P/B fetch failure: skip, but no delay -/

/-- C6 counterexample: a ticker whose P/B fetch fails produces exactly
one warning event — the loop `continue`s without ever reaching
`do_sleep`, so no inter-request delay is applied before the next
ticker. -/
theorem c6_no_sleep_after_pb_failure :
    (poll_tickers {} [pbFailTicker]).1 = [PollEvent.warnPbFetch "F"] ∧
    PollEvent.sleep ∉ (poll_tickers {} [pbFailTicker]).1 := by
  decide

/-- C6 amended: on a P/B fetch failure the loop logs a warning and skips
the ticker entirely — no P/E fetch, no persistence call, no change to the
loop's surviving locals — and continues with the remaining tickers, but
it does not apply the inter-request delay first (the `except` branch runs
`continue` without sleeping). -/
theorem c6_skip_entirely_no_delay (v : PollVars) (t : TickerFetch)
    (rest : List TickerFetch) (h : t.pb? = none) :
    poll_tickers v (t :: rest) =
      (PollEvent.warnPbFetch t.symbol :: (poll_tickers v rest).1,
       (poll_tickers v rest).2) := by
  simp only [poll_tickers, pollStep, h, List.singleton_append]

/-- C6 witness: the amended statement at the concrete failing ticker. -/
theorem c6_skip_entirely_no_delay_witness :
    poll_tickers {} [pbFailTicker] =
      (PollEvent.warnPbFetch pbFailTicker.symbol :: (poll_tickers {} []).1,
       (poll_tickers {} []).2) :=
  c6_skip_entirely_no_delay {} pbFailTicker [] rfl

/-! ## C7 — unparseable dates in the two table parsers -/

/-- C7 counterexample: a P/E table with one unparseable date makes the
whole P/E fetch fail instead of dropping that row and returning the
rest. -/
theorem c7_pe_unparseable_date_fails_fetch :
    parse_pe_table [rawPeGood, rawPeBad] = none := by
  decide

/-- Length of a filterMap through an option-valued projection that is
everywhere defined. -/
theorem length_filterMap_of_isSome {A B : Type} (f : A → Option Date) (g : A → Date → B)
    (l : List A) (hall : ∀ r ∈ l, (f r).isSome = true) :
    (l.filterMap (fun r => (f r).map (g r))).length = l.length := by
  induction l with
  | nil => rfl
  | cons r rs ih =>
    have hr := hall r (List.mem_cons_self r rs)
    cases hd : f r with
    | none => rw [hd] at hr; cases hr
    | some dt =>
      simp only [List.filterMap_cons, hd, Option.map_some', List.length_cons]
      exact congrArg (fun n => n + 1) (ih (fun x hx => hall x (List.mem_cons_of_mem r hx)))

/-- C7 amended: the P/B parser drops exactly the rows whose date fails
to parse and returns the rest; the P/E parser returns all rows when
every date parses, but one unparseable date makes the whole P/E fetch
call fail (the claim holds for the P/B fetcher only). -/
theorem c7_date_parse_handling (symbol company_name : String)
    (rawPb : List RawPbRow) (rawPe : List RawPeRow) :
    (parse_pb_table symbol company_name rawPb).length
      = (rawPb.filter (fun r => r.date.isSome)).length ∧
    ((∀ r ∈ rawPe, r.date.isSome = true) →
      ∃ rows, parse_pe_table rawPe = some rows ∧ rows.length = rawPe.length) ∧
    ((∃ r ∈ rawPe, r.date = none) → parse_pe_table rawPe = none) := by
  refine ⟨?_, ?_, ?_⟩
  · induction rawPb with
    | nil => rfl
    | cons r rs ih =>
      cases hd : r.date with
      | none => simpa [parse_pb_table, List.filterMap_cons, List.filter_cons, hd,
          Option.isSome] using ih
      | some dt => simpa [parse_pb_table, List.filterMap_cons, List.filter_cons, hd,
          Option.isSome] using ih
  · intro hall
    have hall2 : rawPe.all (fun r => r.date.isSome) = true := List.all_eq_true.mpr hall
    refine ⟨_, by rw [parse_pe_table, if_pos hall2], ?_⟩
    exact length_filterMap_of_isSome (fun r => r.date)
      (fun r dt => ({ date := dt, ttm_net_eps := r.ttm_net_eps, pe_ratio := r.pe_ratio } : PeRow))
      rawPe hall
  · intro hbad
    obtain ⟨r, hmem, hdate⟩ := hbad
    rw [parse_pe_table, if_neg]
    intro hall
    have := List.all_eq_true.mp hall r hmem
    rw [hdate] at this
    cases this

/-- C7 witness: the date-handling theorem instantiated on a mixed P/B
table, an all-parseable P/E table and a P/E table with one bad date. -/
theorem c7_date_parse_handling_witness :
    (parse_pb_table "A" "A Co" rawPbEx).length
      = (rawPbEx.filter (fun r => r.date.isSome)).length ∧
    (∃ rows, parse_pe_table [rawPeGood] = some rows ∧ rows.length = [rawPeGood].length) ∧
    parse_pe_table [rawPeGood, rawPeBad] = none :=
  ⟨(c7_date_parse_handling "A" "A Co" rawPbEx [rawPeGood]).1,
   (c7_date_parse_handling "A" "A Co" rawPbEx [rawPeGood]).2.1 (by decide),
   (c7_date_parse_handling "A" "A Co" rawPbEx [rawPeGood, rawPeBad]).2.2
     ⟨rawPeBad, by decide, rfl⟩⟩

/-! ## C8 — bounded exponential backoff in `run` -/

/-- C8: the run loop is the claimed bounded-backoff state machine: a
successful batch resets the retry counter to zero; a failing batch
increments it and, while it has not passed the maximum, the loop sleeps
`base_wait * 2 ^ retries` seconds before retrying; once the counter
exceeds the maximum the loop terminates at once without sleeping again;
and consequently every sleep the loop ever performs is one of the
`maxRetries` bounded backoff steps. -/
theorem c8_bounded_backoff :
    (∀ r rest, runFrom r (PollOutcome.success :: rest) = runFrom 0 rest) ∧
    (∀ r rest, r + 1 ≤ maxRetries →
      runFrom r (PollOutcome.error :: rest) =
        (RunEvent.sleep (baseWaitTime * 2 ^ (r + 1)) :: (runFrom (r + 1) rest).1,
         (runFrom (r + 1) rest).2)) ∧
    (∀ r rest, maxRetries < r + 1 →
      runFrom r (PollOutcome.error :: rest) = ([], RunExit.stoppedExhausted)) ∧
    (∀ outcomes r ev, ev ∈ (runFrom r outcomes).1 →
      ∃ k, 1 ≤ k ∧ k ≤ maxRetries ∧ ev = RunEvent.sleep (baseWaitTime * 2 ^ k)) := by
  refine ⟨fun r rest => rfl, ?_, ?_, ?_⟩
  · intro r rest h
    simp only [runFrom]
    rw [if_neg (by omega)]
  · intro r rest h
    simp only [runFrom]
    rw [if_pos h]
  · intro outcomes
    induction outcomes with
    | nil =>
      intro r ev h
      simp [runFrom] at h
    | cons o rest ih =>
      intro r ev h
      cases o with
      | success => exact ih 0 ev h
      | cancel => simp [runFrom] at h
      | error =>
        simp only [runFrom] at h
        by_cases hr : maxRetries < r + 1
        · rw [if_pos hr] at h
          simp at h
        · rw [if_neg hr] at h
          simp only [List.mem_cons] at h
          cases h with
          | inl he => exact ⟨r + 1, by omega, by omega, he⟩
          | inr ht => exact ih (r + 1) ev ht

/-- C8 witness: the state machine applied at concrete points — a reset,
the first backoff sleep of 10 seconds, the fatal sixth consecutive error,
and the bound on a concrete sleep event. -/
theorem c8_bounded_backoff_witness :
    runFrom 3 [PollOutcome.success] = runFrom 0 [] ∧
    runFrom 0 [PollOutcome.error] =
      (RunEvent.sleep (baseWaitTime * 2 ^ 1) :: (runFrom 1 []).1, (runFrom 1 []).2) ∧
    runFrom 5 [PollOutcome.error] = ([], RunExit.stoppedExhausted) ∧
    ∃ k, 1 ≤ k ∧ k ≤ maxRetries ∧ RunEvent.sleep 10 = RunEvent.sleep (baseWaitTime * 2 ^ k) := by
  have h := c8_bounded_backoff
  exact ⟨h.1 3 [], h.2.1 0 [] (by decide), h.2.2.1 5 [] (by decide),
         h.2.2.2 [PollOutcome.error] 0 (RunEvent.sleep 10) (by decide)⟩

/-! ## C9 — the screening engine is not read-only -/

/-- C9 counterexample: `screen_stocks` leaves its history argument with a
`year` column it did not have before the call — the input structure is
mutated in place, not read-only. -/
theorem c9_not_read_only :
    (screen_stocks [pristineRow] [] defaultCriteria 2024).2.2 ≠ [pristineRow] := by
  decide

/-- C9 amended: `screen_stocks` is deterministic but not read-only: it
converts the date column and assigns a `year` column on the caller's
history dataframe in place (the final state of the argument is exactly
`df.map addYear`), yet the mutation is idempotent, so invoking
`screen_stocks` again on the mutated argument returns the identical
result triple. -/
theorem c9_mutation_idempotent (df : List HistRow) (current_df : List CurrentRow)
    (criteria : Criteria) (currentYear : Int) :
    (screen_stocks df current_df criteria currentYear).2.2 = df.map addYear ∧
    screen_stocks ((screen_stocks df current_df criteria currentYear).2.2)
        current_df criteria currentYear
      = screen_stocks df current_df criteria currentYear := by
  have haddY : ∀ r : HistRow, addYear (addYear r) = addYear r := fun r => rfl
  have hmap : (df.map addYear).map addYear = df.map addYear := by
    rw [List.map_map]
    exact List.map_congr_left fun r _ => haddY r
  have hEx : excludedCurrentYear (df.map addYear) currentYear
      = excludedCurrentYear df currentYear := by
    unfold excludedCurrentYear
    rw [hmap]
  have hW : windowedHistory (df.map addYear) currentYear
      = windowedHistory df currentYear := by
    rw [windowedHistory_def, windowedHistory_def, hEx]
  have hS : screenedSymbols (df.map addYear) current_df criteria currentYear
      = screenedSymbols df current_df criteria currentYear := by
    unfold screenedSymbols
    rw [hW]
  refine ⟨rfl, ?_⟩
  show screen_stocks (df.map addYear) current_df criteria currentYear
      = screen_stocks df current_df criteria currentYear
  unfold screen_stocks
  rw [hW, hS, hmap]

/-! ## C10 — per-call transactional atomicity of the storage writes -/

/-- C10: each storage call is atomic: when the insert batch fails, the
`transaction` context manager rolls the session back so the table is
exactly as before the call (no partial subset of the call's rows is
committed) and re-raises the exception to the caller (the `false`
result); when it returns normally the batch is committed.  This holds
for both `store_report_dataframes` (ignore-on-conflict) and
`store_current_ratio_dataframes` (update-on-conflict), each over any
rejection behaviour of the underlying engine. -/
theorem c10_store_calls_atomic (acceptsH : MergedRow → Bool) (acceptsC : CurStoreRow → Bool)
    (connH : TableConn MergedRow) (connC : TableConn CurStoreRow)
    (dfsH : List (List MergedRow)) (dfsC : List (List CurStoreRow)) :
    ((store_report_dataframes acceptsH connH dfsH).2 = false →
      (store_report_dataframes acceptsH connH dfsH).1.committed = connH.committed ∧
      (store_report_dataframes acceptsH connH dfsH).1.session = connH.committed) ∧
    ((store_report_dataframes acceptsH connH dfsH).2 = true →
      (store_report_dataframes acceptsH connH dfsH).1.committed
        = (executemanyWith acceptsH upsertIgnoreHist connH.session dfsH.flatten).1) ∧
    ((store_current_ratio_dataframes acceptsC connC dfsC).2 = false →
      (store_current_ratio_dataframes acceptsC connC dfsC).1.committed = connC.committed ∧
      (store_current_ratio_dataframes acceptsC connC dfsC).1.session = connC.committed) ∧
    ((store_current_ratio_dataframes acceptsC connC dfsC).2 = true →
      (store_current_ratio_dataframes acceptsC connC dfsC).1.committed
        = (executemanyWith acceptsC upsertUpdateCur connC.session dfsC.flatten).1) := by
  unfold store_report_dataframes store_current_ratio_dataframes runInTransaction
  rcases hH : executemanyWith acceptsH upsertIgnoreHist connH.session dfsH.flatten
    with ⟨sessH, okH⟩
  rcases hC : executemanyWith acceptsC upsertUpdateCur connC.session dfsC.flatten
    with ⟨sessC, okC⟩
  cases okH <;> cases okC <;> simp

/-- C10 witness: a rejected tuple rolls each table back to its prior
(empty) state; an accepted batch commits the upsert result. -/
theorem c10_store_calls_atomic_witness :
    ((store_report_dataframes mrowAccepts connH0 [[mrowOk, mrowBad]]).1.committed
        = connH0.committed ∧
     (store_report_dataframes mrowAccepts connH0 [[mrowOk, mrowBad]]).1.session
        = connH0.committed) ∧
    (store_report_dataframes mrowAccepts connH0 [[mrowOk]]).1.committed
      = (executemanyWith mrowAccepts upsertIgnoreHist connH0.session [[mrowOk]].flatten).1 ∧
    ((store_current_ratio_dataframes crowAccepts connC0 [[crowBad]]).1.committed
        = connC0.committed ∧
     (store_current_ratio_dataframes crowAccepts connC0 [[crowBad]]).1.session
        = connC0.committed) ∧
    (store_current_ratio_dataframes crowAccepts connC0 [[crowOk]]).1.committed
      = (executemanyWith crowAccepts upsertUpdateCur connC0.session [[crowOk]].flatten).1 :=
  ⟨(c10_store_calls_atomic mrowAccepts crowAccepts connH0 connC0
      [[mrowOk, mrowBad]] [[crowBad]]).1 (by decide),
   (c10_store_calls_atomic mrowAccepts crowAccepts connH0 connC0
      [[mrowOk]] [[crowOk]]).2.1 (by decide),
   (c10_store_calls_atomic mrowAccepts crowAccepts connH0 connC0
      [[mrowOk, mrowBad]] [[crowBad]]).2.2.1 (by decide),
   (c10_store_calls_atomic mrowAccepts crowAccepts connH0 connC0
      [[mrowOk]] [[crowOk]]).2.2.2 (by decide)⟩
